import Mathlib

/-!
Verification of `conda/connection.py` — the pluggable transport layer
(session/router plus the `file://` and `s3://` scheme adapters).

The Python source is shallowly embedded: pure computations become Lean
functions; OS, filesystem and object-store interactions are passed in as
explicit oracles (a `FileSystem`, an `S3Service`, the external collaborator
functions `url_to_path`, `url_to_s3_info`, `mimetypes.guess_type`,
`email.utils.formatdate`); the S3 adapter's mutable `_temp_file` field is
threaded as explicit state, and its observable side effects (temp files
created on disk, files removed, log lines emitted) are returned as data.
Bytes are modelled as `Nat`, byte strings as `List Nat`.
-/

/-- Model of a Python `OSError` raised by `os.stat` (errno carried for
identity; the adapter stores the error object itself in `resp.raw`). -/
structure OSError where
  errno : Nat
deriving DecidableEq

/-- Model of `boto.exception.S3ResponseError` raised by `bucket.get_key`. -/
structure S3ResponseError where
  code : Nat
deriving DecidableEq

/-- Model of the result of `os.stat`: the fields `connection.py` reads. -/
structure Stats where
  st_mtime : Int
  st_size : Nat
deriving DecidableEq

/-- The filesystem oracle: `stat` models `os.stat` (raising `OSError` on
failure), `readFile` models the byte contents delivered by
`open(pathname, "rb")` for a path whose stat succeeded. -/
structure FileSystem where
  stat : String → Except OSError Stats
  readFile : String → List Nat

/-- The headers dictionary both adapters build: a
`CaseInsensitiveDict` holding exactly the keys `Content-Type`,
`Content-Length` and `Last-Modified`. -/
structure RespHeaders where
  contentType : String
  contentLength : Nat
  lastModified : String
deriving DecidableEq

/-- What sits in `resp.raw`: nothing (the `requests.models.Response()`
default), a stored error object (`OSError` from the local adapter,
`S3ResponseError` from the object-store adapter), or an open
binary-mode file modelled by its byte contents. -/
inductive Raw where
  | nothing
  | oserror (e : OSError)
  | s3error (e : S3ResponseError)
  | stream (bytes : List Nat)
deriving DecidableEq

/-- Model of `requests.models.Response` as `connection.py` populates it:
status code, echoed URL, the headers dict (`none` = the empty default
dict), and the raw slot. -/
structure Response where
  status_code : Nat
  url : String
  headers : Option RespHeaders
  raw : Raw
deriving DecidableEq

/-- A response has an openable body stream exactly when its raw slot is an
open file. -/
def Response.hasBodyStream (r : Response) : Bool :=
  match r.raw with
  | Raw.stream _ => true
  | _ => false

/-- `LocalFSAdapter.send`: translate the URL to a path, `os.stat` it;
on `OSError` return 404 with the error stored in `raw`; on success build
the three headers (Content-Type via `mimetypes.guess_type` with
`text/plain` fallback, Content-Length from `st_size`, Last-Modified via
`email.utils.formatdate(st_mtime, usegmt=True)`) and open the file for
binary reading as the body.  `guess_type`, `formatdate` and
`url_to_path` are the external collaborators. -/
def LocalFSAdapter.send (fs : FileSystem) (guess_type : String → Option String)
    (formatdate : Int → String) (url_to_path : String → String)
    (url : String) : Response :=
  let pathname := url_to_path url
  match fs.stat pathname with
  | Except.error exc =>
      { status_code := 404, url := url, headers := Option.none,
        raw := Raw.oserror exc }
  | Except.ok stats =>
      let modified := formatdate stats.st_mtime
      let content_type := (guess_type pathname).getD "text/plain"
      { status_code := 200, url := url,
        headers := Option.some
          { contentType := content_type,
            contentLength := stats.st_size,
            lastModified := modified },
        raw := Raw.stream (fs.readFile pathname) }

/-- `LocalFSAdapter.close` is `pass`. -/
def LocalFSAdapter.close : Unit := ()

/-- A boto `Key` object as `S3Adapter.send` reads it: the attributes
`last_modified`, `content_type` (`Option.none` models a falsy stored
content type, caught by the `or "text/plain"` fallback), `size`,
the `exists` attribute the code truth-tests, and the byte contents that
`get_contents_to_filename` downloads. -/
structure S3Key where
  last_modified : String
  content_type : Option String
  size : Nat
  key_exists : Bool
  contents : List Nat
deriving DecidableEq

/-- The object-store oracle: `get_key bucket key` models
`bucket.get_key(key_string)`, which returns a `Key`, returns `None`, or
raises `S3ResponseError` (bucket missing / access denied). -/
structure S3Service where
  get_key : String → String → Except S3ResponseError (Option S3Key)

/-- The `S3Adapter` instance state: `self._temp_file`, set to `None` in
`__init__` and to the freshly made temp path on a successful fetch. -/
structure S3Adapter where
  _temp_file : Option String
deriving DecidableEq

/-- `S3Adapter.__init__`: `self._temp_file = None`. -/
def S3Adapter.init : S3Adapter := { _temp_file := Option.none }

/-- The installation hint `stderrlog.info` emits when `import boto`
fails. -/
def boto_install_hint : String :=
  "\nError: boto is required for S3 channels. Please install it with `conda install boto`\nMake sure to run `source deactivate` if you are in a conda environment.\n"

/-- The observable outcome of one `S3Adapter.send` call: the response,
the adapter state afterwards, the temp files created on disk during the
call (path and bytes finally written into each), and the log lines
emitted. -/
structure S3SendResult where
  resp : Response
  state : S3Adapter
  tempFilesCreated : List (String × List Nat)
  logs : List String
deriving DecidableEq

/-- `S3Adapter.send`: build a 200 response; if `import boto` fails
(`boto_available = false`), log the installation hint and return 404 at
once.  Otherwise translate the URL to `(bucket_name, key_string)` via
the external collaborator `url_to_s3_info`, get the bucket without
validation, and look the key up: an `S3ResponseError` yields 404 with
the error stored in `raw`; `if key and key.exists` build the headers
from the key's stored attributes, `tempfile.mkstemp()` a fresh temp
file (its path supplied by the oracle argument `mkstemp_path`),
download the object into it and open it for binary reading as the body;
otherwise 404.  (The boto `Config.get` monkey-patch in the source is an
upstream workaround with no bearing on the adapter's contract and is
not modelled.) -/
def S3Adapter.send (a : S3Adapter) (boto_available : Bool) (svc : S3Service)
    (url_to_s3_info : String → String × String) (mkstemp_path : String)
    (url : String) : S3SendResult :=
  if boto_available then
    let bucket_name := (url_to_s3_info url).1
    let key_string := (url_to_s3_info url).2
    match svc.get_key bucket_name key_string with
    | Except.error exc =>
        { resp := { status_code := 404, url := url, headers := Option.none,
                    raw := Raw.s3error exc },
          state := a, tempFilesCreated := [], logs := [] }
    | Except.ok (Option.some key) =>
        if key.key_exists then
          let content_type := key.content_type.getD "text/plain"
          { resp := { status_code := 200, url := url,
                      headers := Option.some
                        { contentType := content_type,
                          contentLength := key.size,
                          lastModified := key.last_modified },
                      raw := Raw.stream key.contents },
            state := { _temp_file := Option.some mkstemp_path },
            tempFilesCreated := [(mkstemp_path, key.contents)],
            logs := [] }
        else
          { resp := { status_code := 404, url := url, headers := Option.none,
                      raw := Raw.nothing },
            state := a, tempFilesCreated := [], logs := [] }
    | Except.ok Option.none =>
        { resp := { status_code := 404, url := url, headers := Option.none,
                    raw := Raw.nothing },
          state := a, tempFilesCreated := [], logs := [] }
  else
    { resp := { status_code := 404, url := url, headers := Option.none,
                raw := Raw.nothing },
      state := a, tempFilesCreated := [], logs := [boto_install_hint] }

/-- `S3Adapter.close`: `if self._temp_file: os.remove(self._temp_file)`.
The returned list is the paths removed from disk. -/
def S3Adapter.close (a : S3Adapter) : List String :=
  match a._temp_file with
  | Option.some f => [f]
  | Option.none => []

/-- The module constant `RETRIES = 3`, the default retry count. -/
def RETRIES : Nat := 3

/-- What can be mounted on a scheme prefix of the session: the network
transport `requests.adapters.HTTPAdapter` carrying its `max_retries`
configuration, or one of the two scheme adapters. -/
inductive MountedAdapter where
  | httpAdapter (max_retries : Nat)
  | localFSAdapter
  | s3Adapter
deriving DecidableEq

/-- `requests.Session.mount`: store the adapter under the prefix,
replacing any adapter already mounted there (last-mount-wins). -/
def sessionMount (mounts : List (String × MountedAdapter)) (pre : String)
    (a : MountedAdapter) : List (String × MountedAdapter) :=
  (pre, a) :: mounts.filter (fun p => p.1 ≠ pre)

/-- The mounts `requests.Session.__init__` installs before
`CondaSession.__init__` runs: a default `HTTPAdapter()` (whose
`max_retries` is 0) on `https://` and on `http://`. -/
def requestsSessionDefaultMounts : List (String × MountedAdapter) :=
  [("https://", MountedAdapter.httpAdapter 0),
   ("http://", MountedAdapter.httpAdapter 0)]

/-- The `CondaSession` state the constructor produces. -/
structure CondaSession where
  proxies : List (String × String)
  mounts : List (String × MountedAdapter)
  userAgentHeader : String
  verify : Bool
deriving DecidableEq

/-- `CondaSession.__init__`: pop `retries` (default `RETRIES`) — here the
caller passes it explicitly; take over non-empty proxy settings from the
context; if `retries` is truthy, mount one
`HTTPAdapter(max_retries=retries)` on both `http://` and `https://`;
mount `LocalFSAdapter()` on `file://` and `S3Adapter()` on `s3://`;
set the `User-Agent` header and the TLS-verification flag. -/
def CondaSession.init (retries : Nat) (context_proxy_servers : List (String × String))
    (ua : String) (context_ssl_verify : Bool) : CondaSession :=
  let m0 := requestsSessionDefaultMounts
  let m1 :=
    if retries ≠ 0 then
      let http_adapter := MountedAdapter.httpAdapter retries
      sessionMount (sessionMount m0 "http://" http_adapter) "https://" http_adapter
    else m0
  let m2 := sessionMount m1 "file://" MountedAdapter.localFSAdapter
  let m3 := sessionMount m2 "s3://" MountedAdapter.s3Adapter
  { proxies := if context_proxy_servers ≠ [] then context_proxy_servers else [],
    mounts := m3,
    userAgentHeader := ua,
    verify := context_ssl_verify }

/-- The `_user_agent` template
`conda/... requests/... python/... system/kernel dist/ver`,
instantiated by `str.format`. -/
def _user_agent (conda_ver requests_ver python py_ver system kernel dist ver :
    String) : String :=
  "conda/" ++ conda_ver ++ " requests/" ++ requests_ver ++ " " ++
    python ++ "/" ++ py_ver ++ " " ++ system ++ "/" ++ kernel ++ " " ++
    dist ++ "/" ++ ver

/-- The module-level `user_agent` string: the formatted `_user_agent`
template, plus `" glibc/<glibc_ver>"` appended when
`gnu_get_libc_version()` returned a truthy (non-empty) value. -/
def user_agent (conda_ver requests_ver python py_ver system kernel dist ver
    glibc_ver : String) : String :=
  let ua := _user_agent conda_ver requests_ver python py_ver system kernel dist ver
  if glibc_ver ≠ "" then ua ++ " glibc/" ++ glibc_ver else ua

/-- An in-memory byte buffer (`io.BytesIO`) with its read position. -/
structure ByteBuf where
  data : List Nat
  pos : Nat
deriving DecidableEq

/-- `dict.popitem()` on the multipart dictionary, modelled on an
association list in insertion order.  CPython removes and returns an
arbitrary item (the most recently inserted one on modern CPython); with
a single-item dictionary every order agrees, and the theorems below
only rely on that case.  Returns `Option.none` for the empty dict
(where `popitem` raises `KeyError`). -/
def dict_popitem (l : List (String × List (List Nat))) :
    Option (String × List (List Nat)) :=
  l.getLast?

/-- `parse_multipart_files`: read the request's `Content-Type` header
and recover the parameter dictionary with `cgi.parse_header`; wrap the
body bytes in a buffer; decode it with `cgi.parse_multipart` (both
stdlib collaborators passed as oracles, the latter returning the
field-name → list-of-payloads dictionary in insertion order); pop one
item from the dictionary; join that field's payloads into a fresh
buffer and rewind it.  `Option.none` models the `KeyError` escaping
from `popitem` on a body with no parts. -/
def parse_multipart_files
    (parse_header : String → String × List (String × String))
    (parse_multipart : List Nat → List (String × String) →
      List (String × List (List Nat)))
    (content_type_header : String) (body : List Nat) : Option ByteBuf :=
  let pdict := (parse_header content_type_header).2
  let data := parse_multipart body pdict
  match dict_popitem data with
  | Option.some (_, filedata) =>
      Option.some { data := filedata.flatten, pos := 0 }
  | Option.none => Option.none

/-! ## Concrete oracle instances used by the witnesses -/

/-- A concrete filesystem for witnesses: `/tmp/x.json` stats
successfully (mtime 1700000000, size 3) and holds bytes `[10, 20, 30]`;
every other path fails to stat with errno 2 (`ENOENT`). -/
def fsW : FileSystem :=
  { stat := fun p =>
      if p = "/tmp/x.json" then
        Except.ok { st_mtime := 1700000000, st_size := 3 }
      else
        Except.error { errno := 2 },
    readFile := fun p => if p = "/tmp/x.json" then [10, 20, 30] else [] }

/-- A concrete `mimetypes.guess_type` oracle. -/
def guessTypeW : String → Option String :=
  fun p => if p = "/tmp/x.json" then Option.some "application/json" else Option.none

/-- A concrete `email.utils.formatdate` oracle. -/
def formatdateW : Int → String := fun t => "httpdate " ++ toString t ++ " GMT"

/-- A concrete `url_to_path` collaborator. -/
def urlToPathW : String → String :=
  fun u => if u = "file:///tmp/x.json" then "/tmp/x.json" else "/missing"

/-- C1: for every `file://` request whose locator resolves to a path that
can be stat'ed, `LocalFSAdapter.send` returns status 200 with
Content-Type guessed from the path (falling back to `text/plain`),
Content-Length equal to the stat'ed size, Last-Modified the HTTP-date
(GMT) encoding of the stat'ed mtime, and as body the file opened for
binary reading, whose bytes are the file's contents. -/
theorem localfs_send_success (fs : FileSystem)
    (guess_type : String → Option String) (formatdate : Int → String)
    (url_to_path : String → String) (url : String) (stats : Stats)
    (h : fs.stat (url_to_path url) = Except.ok stats) :
    LocalFSAdapter.send fs guess_type formatdate url_to_path url =
      { status_code := 200, url := url,
        headers := Option.some
          { contentType := (guess_type (url_to_path url)).getD "text/plain",
            contentLength := stats.st_size,
            lastModified := formatdate stats.st_mtime },
        raw := Raw.stream (fs.readFile (url_to_path url)) } ∧
    (LocalFSAdapter.send fs guess_type formatdate url_to_path url).hasBodyStream
      = true := by
  simp only [LocalFSAdapter.send, h, Response.hasBodyStream, and_self]

/-- Witness for C1 at the concrete filesystem `fsW` and URL
`file:///tmp/x.json`. -/
theorem localfs_send_success_witness :
    LocalFSAdapter.send fsW guessTypeW formatdateW urlToPathW
        "file:///tmp/x.json" =
      { status_code := 200, url := "file:///tmp/x.json",
        headers := Option.some
          { contentType := (guessTypeW (urlToPathW "file:///tmp/x.json")).getD
              "text/plain",
            contentLength := (3 : Nat),
            lastModified := formatdateW 1700000000 },
        raw := Raw.stream (fsW.readFile (urlToPathW "file:///tmp/x.json")) } ∧
    (LocalFSAdapter.send fsW guessTypeW formatdateW urlToPathW
        "file:///tmp/x.json").hasBodyStream = true :=
  localfs_send_success fsW guessTypeW formatdateW urlToPathW
    "file:///tmp/x.json" { st_mtime := 1700000000, st_size := 3 } rfl

/-- C2: for every `file://` request whose path cannot be stat'ed,
`LocalFSAdapter.send` does not raise: it returns status 404 with the
causing `OSError` stored in the raw slot, an untouched (empty) headers
dict, and no openable body stream. -/
theorem localfs_send_stat_error (fs : FileSystem)
    (guess_type : String → Option String) (formatdate : Int → String)
    (url_to_path : String → String) (url : String) (e : OSError)
    (h : fs.stat (url_to_path url) = Except.error e) :
    LocalFSAdapter.send fs guess_type formatdate url_to_path url =
      { status_code := 404, url := url, headers := Option.none,
        raw := Raw.oserror e } ∧
    (LocalFSAdapter.send fs guess_type formatdate url_to_path url).hasBodyStream
      = false := by
  simp only [LocalFSAdapter.send, h, Response.hasBodyStream, and_self]

/-- Witness for C2 at the concrete filesystem `fsW` and a URL whose path
is missing. -/
theorem localfs_send_stat_error_witness :
    LocalFSAdapter.send fsW guessTypeW formatdateW urlToPathW
        "file:///tmp/gone" =
      { status_code := 404, url := "file:///tmp/gone", headers := Option.none,
        raw := Raw.oserror { errno := 2 } } ∧
    (LocalFSAdapter.send fsW guessTypeW formatdateW urlToPathW
        "file:///tmp/gone").hasBodyStream = false :=
  localfs_send_stat_error fsW guessTypeW formatdateW urlToPathW
    "file:///tmp/gone" { errno := 2 } rfl

/-- A concrete stored object for witnesses: content type
`application/x-tar`, size 4, exists, bytes `[7, 8, 9, 9]`. -/
def keyW : S3Key :=
  { last_modified := "Wed, 01 Jan 2020 00:00:00 GMT",
    content_type := Option.some "application/x-tar",
    size := 4, key_exists := true, contents := [7, 8, 9, 9] }

/-- A concrete object store for witnesses: bucket `bkt` holds `keyW`
under `pkgs/a.tar`, returns `None` for `pkgs/none`, raises for every
other bucket or key. -/
def svcW : S3Service :=
  { get_key := fun b k =>
      if b = "bkt" then
        if k = "pkgs/a.tar" then Except.ok (Option.some keyW)
        else if k = "pkgs/none" then Except.ok Option.none
        else Except.error { code := 403 }
      else Except.error { code := 404 } }

/-- A concrete `url_to_s3_info` collaborator for witnesses. -/
def urlToS3InfoW : String → String × String :=
  fun u =>
    if u = "s3://bkt/pkgs/a.tar" then ("bkt", "pkgs/a.tar")
    else if u = "s3://bkt/pkgs/none" then ("bkt", "pkgs/none")
    else ("other", "x")

/-- C3: for every `s3://` request whose key exists, `S3Adapter.send`
returns status 200 with Content-Type the object's stored content type
(defaulting to `text/plain` when falsy), Content-Length the object's
size, Last-Modified the stored modification time verbatim, and as body
a newly created local temp file, holding the object's downloaded
contents, opened for binary reading; the temp path is recorded in the
adapter state. -/
theorem s3_send_key_exists (a : S3Adapter) (svc : S3Service)
    (url_to_s3_info : String → String × String) (mkstemp_path : String)
    (url : String) (key : S3Key)
    (hk : svc.get_key (url_to_s3_info url).1 (url_to_s3_info url).2 =
      Except.ok (Option.some key))
    (he : key.key_exists = true) :
    S3Adapter.send a true svc url_to_s3_info mkstemp_path url =
      { resp := { status_code := 200, url := url,
                  headers := Option.some
                    { contentType := key.content_type.getD "text/plain",
                      contentLength := key.size,
                      lastModified := key.last_modified },
                  raw := Raw.stream key.contents },
        state := { _temp_file := Option.some mkstemp_path },
        tempFilesCreated := [(mkstemp_path, key.contents)],
        logs := [] } := by
  simp only [S3Adapter.send, hk, he, if_true]

/-- Witness for C3 at the concrete store `svcW`. -/
theorem s3_send_key_exists_witness :
    S3Adapter.send S3Adapter.init true svcW urlToS3InfoW "/tmp/tmpabc"
        "s3://bkt/pkgs/a.tar" =
      { resp := { status_code := 200, url := "s3://bkt/pkgs/a.tar",
                  headers := Option.some
                    { contentType := keyW.content_type.getD "text/plain",
                      contentLength := keyW.size,
                      lastModified := keyW.last_modified },
                  raw := Raw.stream keyW.contents },
        state := { _temp_file := Option.some "/tmp/tmpabc" },
        tempFilesCreated := [("/tmp/tmpabc", keyW.contents)],
        logs := [] } :=
  s3_send_key_exists S3Adapter.init svcW urlToS3InfoW "/tmp/tmpabc"
    "s3://bkt/pkgs/a.tar" keyW rfl rfl

/-- C4: for every `s3://` request where the key lookup raises a
service-level `S3ResponseError` or where the key does not exist,
`S3Adapter.send` does not raise past its boundary (it is a total
function into `S3SendResult`): it returns status 404, and in the
service-error case the causing error object is stored in the response's
raw slot. -/
theorem s3_send_not_found (a : S3Adapter) (svc : S3Service)
    (url_to_s3_info : String → String × String) (mkstemp_path : String)
    (url : String) :
    (∀ e, svc.get_key (url_to_s3_info url).1 (url_to_s3_info url).2 =
        Except.error e →
      (S3Adapter.send a true svc url_to_s3_info mkstemp_path url).resp.status_code
          = 404 ∧
      (S3Adapter.send a true svc url_to_s3_info mkstemp_path url).resp.raw
          = Raw.s3error e) ∧
    (svc.get_key (url_to_s3_info url).1 (url_to_s3_info url).2 =
        Except.ok Option.none →
      (S3Adapter.send a true svc url_to_s3_info mkstemp_path url).resp.status_code
          = 404) ∧
    (∀ key, svc.get_key (url_to_s3_info url).1 (url_to_s3_info url).2 =
        Except.ok (Option.some key) → key.key_exists = false →
      (S3Adapter.send a true svc url_to_s3_info mkstemp_path url).resp.status_code
          = 404) := by
  refine ⟨fun e he => ?_, fun hn => ?_, fun key hk hke => ?_⟩
  · simp only [S3Adapter.send, he, if_true, and_self]
  · simp only [S3Adapter.send, hn, if_true]
  · simp only [S3Adapter.send, hk, hke, if_true, Bool.false_eq_true, if_false]

/-- Witness for C4: the store `svcW` raises for bucket `other` and
returns no key for `pkgs/none`. -/
theorem s3_send_not_found_witness :
    ((S3Adapter.send S3Adapter.init true svcW urlToS3InfoW "/tmp/t"
        "s3://elsewhere/x").resp.status_code = 404 ∧
      (S3Adapter.send S3Adapter.init true svcW urlToS3InfoW "/tmp/t"
        "s3://elsewhere/x").resp.raw = Raw.s3error { code := 404 }) ∧
    (S3Adapter.send S3Adapter.init true svcW urlToS3InfoW "/tmp/t"
        "s3://bkt/pkgs/none").resp.status_code = 404 :=
  ⟨(s3_send_not_found S3Adapter.init svcW urlToS3InfoW "/tmp/t"
      "s3://elsewhere/x").1 { code := 404 } rfl,
   (s3_send_not_found S3Adapter.init svcW urlToS3InfoW "/tmp/t"
      "s3://bkt/pkgs/none").2.1 rfl⟩

/-- C5: for every `s3://` request issued when `import boto` fails,
`S3Adapter.send` logs the actionable installation hint and immediately
returns status 404: no temp file is created, the adapter state is
untouched, and the key lookup is never consulted. -/
theorem s3_send_boto_missing (a : S3Adapter) (svc : S3Service)
    (url_to_s3_info : String → String × String) (mkstemp_path : String)
    (url : String) :
    S3Adapter.send a false svc url_to_s3_info mkstemp_path url =
      { resp := { status_code := 404, url := url, headers := Option.none,
                  raw := Raw.nothing },
        state := a, tempFilesCreated := [], logs := [boto_install_hint] } := by
  simp only [S3Adapter.send, Bool.false_eq_true, if_false]
/-- C6: on construction with retry count 0 no retry-configured transport
adapter is mounted for `http://` or `https://` (the only network
adapters in the mount table are the `requests.Session` defaults with
`max_retries = 0`); with a positive count the one
`HTTPAdapter(max_retries=retries)` is mounted on both prefixes
identically, replacing the defaults. -/
theorem condaSession_retry_mounts (retries : Nat)
    (context_proxy_servers : List (String × String)) (ua : String)
    (context_ssl_verify : Bool) :
    (retries = 0 →
      (CondaSession.init retries context_proxy_servers ua
          context_ssl_verify).mounts =
        [("s3://", MountedAdapter.s3Adapter),
         ("file://", MountedAdapter.localFSAdapter),
         ("https://", MountedAdapter.httpAdapter 0),
         ("http://", MountedAdapter.httpAdapter 0)] ∧
      ∀ pre n, (pre, MountedAdapter.httpAdapter n) ∈
          (CondaSession.init retries context_proxy_servers ua
            context_ssl_verify).mounts → n = 0) ∧
    (retries ≠ 0 →
      (CondaSession.init retries context_proxy_servers ua
          context_ssl_verify).mounts =
        [("s3://", MountedAdapter.s3Adapter),
         ("file://", MountedAdapter.localFSAdapter),
         ("https://", MountedAdapter.httpAdapter retries),
         ("http://", MountedAdapter.httpAdapter retries)] ∧
      List.lookup "http://"
          (CondaSession.init retries context_proxy_servers ua
            context_ssl_verify).mounts =
        Option.some (MountedAdapter.httpAdapter retries) ∧
      List.lookup "https://"
          (CondaSession.init retries context_proxy_servers ua
            context_ssl_verify).mounts =
        Option.some (MountedAdapter.httpAdapter retries)) := by
  constructor
  · intro h0
    subst h0
    have htab : (CondaSession.init 0 context_proxy_servers ua
        context_ssl_verify).mounts =
        [("s3://", MountedAdapter.s3Adapter),
         ("file://", MountedAdapter.localFSAdapter),
         ("https://", MountedAdapter.httpAdapter 0),
         ("http://", MountedAdapter.httpAdapter 0)] := rfl
    refine ⟨htab, ?_⟩
    intro pre n hmem
    rw [htab] at hmem
    simp only [List.mem_cons, List.not_mem_nil, or_false, Prod.mk.injEq] at hmem
    rcases hmem with ⟨_, h⟩ | ⟨_, h⟩ | ⟨_, h⟩ | ⟨_, h⟩ <;> cases h <;> rfl
  · intro hne
    have htab : (CondaSession.init retries context_proxy_servers ua
        context_ssl_verify).mounts =
        [("s3://", MountedAdapter.s3Adapter),
         ("file://", MountedAdapter.localFSAdapter),
         ("https://", MountedAdapter.httpAdapter retries),
         ("http://", MountedAdapter.httpAdapter retries)] := by
      simp only [CondaSession.init, sessionMount, requestsSessionDefaultMounts,
        hne, if_true, ne_eq]
      simp
    refine ⟨htab, ?_, ?_⟩ <;> rw [htab] <;> simp [List.lookup]

/-- Witness for C6 at retry count 0 (no retry-configured adapter) and at
retry count 3 (identical `HTTPAdapter(max_retries=3)` on both
prefixes). -/
theorem condaSession_retry_mounts_witness :
    (CondaSession.init 0 [] "ua" true).mounts =
      [("s3://", MountedAdapter.s3Adapter),
       ("file://", MountedAdapter.localFSAdapter),
       ("https://", MountedAdapter.httpAdapter 0),
       ("http://", MountedAdapter.httpAdapter 0)] ∧
    List.lookup "http://" (CondaSession.init 3 [] "ua" true).mounts =
      Option.some (MountedAdapter.httpAdapter 3) ∧
    List.lookup "https://" (CondaSession.init 3 [] "ua" true).mounts =
      Option.some (MountedAdapter.httpAdapter 3) :=
  ⟨((condaSession_retry_mounts 0 [] "ua" true).1 rfl).1,
   ((condaSession_retry_mounts 3 [] "ua" true).2 (by decide)).2⟩

/-- C7 counterexample: with a determinable C-library version (here
`2.23`), the identification string does not end with a segment
`libc/2.23` — its final segment is `glibc/2.23`.  (A segment is
space-delimited, so "ends with the segment `libc/2.23`" means the
string ends in `" libc/2.23"`.) -/
theorem user_agent_libc_counterexample :
    List.isSuffixOf (" libc/2.23").data
        (user_agent "4.0.5" "2.12.4" "CPython" "2.7.11" "Linux" "4.4.0"
          "Ubuntu" "16.04" "2.23").data = false ∧
    List.isSuffixOf (" glibc/2.23").data
        (user_agent "4.0.5" "2.12.4" "CPython" "2.7.11" "Linux" "4.4.0"
          "Ubuntu" "16.04" "2.23").data = true := by
  decide

/-- C7 (amended): the identification string always begins with the
product token `conda/<version>`; when no C-library version is
determinable (empty `glibc_ver`) the trailing segment is omitted
entirely, and when one is determinable the string ends with a segment
of the form `glibc/<libc-version>`. -/
theorem user_agent_glibc_format (conda_ver requests_ver python py_ver system
    kernel dist ver glibc_ver : String) :
    (∃ rest,
      user_agent conda_ver requests_ver python py_ver system kernel dist ver
          glibc_ver =
        "conda/" ++ conda_ver ++ rest) ∧
    (glibc_ver = "" →
      user_agent conda_ver requests_ver python py_ver system kernel dist ver
          glibc_ver =
        _user_agent conda_ver requests_ver python py_ver system kernel dist
          ver) ∧
    (glibc_ver ≠ "" →
      user_agent conda_ver requests_ver python py_ver system kernel dist ver
          glibc_ver =
        _user_agent conda_ver requests_ver python py_ver system kernel dist
            ver ++
          " glibc/" ++ glibc_ver) := by
  refine ⟨?_, fun h => ?_, fun h => ?_⟩
  · by_cases h : glibc_ver = ""
    · refine ⟨" requests/" ++ requests_ver ++ " " ++ python ++ "/" ++ py_ver ++
        " " ++ system ++ "/" ++ kernel ++ " " ++ dist ++ "/" ++ ver, ?_⟩
      simp [user_agent, _user_agent, h, String.append_assoc]
    · refine ⟨" requests/" ++ requests_ver ++ " " ++ python ++ "/" ++ py_ver ++
        " " ++ system ++ "/" ++ kernel ++ " " ++ dist ++ "/" ++ ver ++
        " glibc/" ++ glibc_ver, ?_⟩
      simp [user_agent, _user_agent, h, String.append_assoc]
  · simp [user_agent, h]
  · simp [user_agent, h]

/-- Witness for C7's amended theorem at concrete version strings, for
both an empty and a non-empty C-library version. -/
theorem user_agent_glibc_format_witness :
    user_agent "4.0.5" "2.12.4" "CPython" "2.7.11" "Linux" "4.4.0" "Ubuntu"
        "16.04" "" =
      _user_agent "4.0.5" "2.12.4" "CPython" "2.7.11" "Linux" "4.4.0" "Ubuntu"
        "16.04" ∧
    user_agent "4.0.5" "2.12.4" "CPython" "2.7.11" "Linux" "4.4.0" "Ubuntu"
        "16.04" "2.23" =
      _user_agent "4.0.5" "2.12.4" "CPython" "2.7.11" "Linux" "4.4.0" "Ubuntu"
          "16.04" ++
        " glibc/" ++ "2.23" :=
  ⟨((user_agent_glibc_format "4.0.5" "2.12.4" "CPython" "2.7.11" "Linux"
      "4.4.0" "Ubuntu" "16.04" "").2.1) rfl,
   ((user_agent_glibc_format "4.0.5" "2.12.4" "CPython" "2.7.11" "Linux"
      "4.4.0" "Ubuntu" "16.04" "2.23").2.2) (by decide)⟩

/-- C8: when a fetch succeeds (key exists, so a temp file was made),
`close()` on the resulting adapter state removes exactly the temp file
that fetch created.  `close` reads only the adapter state — reading or
not reading the response body can not affect it — so this holds even
when the caller never reads the body. -/
theorem s3_close_removes_temp (a : S3Adapter) (svc : S3Service)
    (url_to_s3_info : String → String × String) (mkstemp_path : String)
    (url : String) (key : S3Key)
    (hk : svc.get_key (url_to_s3_info url).1 (url_to_s3_info url).2 =
      Except.ok (Option.some key))
    (he : key.key_exists = true) :
    S3Adapter.close (S3Adapter.send a true svc url_to_s3_info mkstemp_path
        url).state = [mkstemp_path] ∧
    (S3Adapter.send a true svc url_to_s3_info mkstemp_path
        url).tempFilesCreated.map Prod.fst = [mkstemp_path] := by
  simp only [S3Adapter.send, hk, he, if_true, S3Adapter.close, List.map_cons,
    List.map_nil, and_self]

/-- Witness for C8 at the concrete store `svcW`. -/
theorem s3_close_removes_temp_witness :
    S3Adapter.close (S3Adapter.send S3Adapter.init true svcW urlToS3InfoW
        "/tmp/tmpxyz" "s3://bkt/pkgs/a.tar").state = ["/tmp/tmpxyz"] ∧
    (S3Adapter.send S3Adapter.init true svcW urlToS3InfoW "/tmp/tmpxyz"
        "s3://bkt/pkgs/a.tar").tempFilesCreated.map Prod.fst = ["/tmp/tmpxyz"] :=
  s3_close_removes_temp S3Adapter.init svcW urlToS3InfoW "/tmp/tmpxyz"
    "s3://bkt/pkgs/a.tar" keyW rfl rfl

/-- A concrete `cgi.parse_header` oracle for the multipart theorems. -/
def parseHeaderW : String → String × List (String × String) :=
  fun _ => ("multipart/form-data", [("boundary", "XX")])

/-- A concrete `cgi.parse_multipart` oracle whose decoded dictionary
holds one field name `file` carrying two file-part payloads (a repeated
form field). -/
def parseMultipartTwoParts :
    List Nat → List (String × String) → List (String × List (List Nat)) :=
  fun _ _ => [("file", [[1, 2], [3, 4]])]

/-- C9 counterexample: on a multipart body that decodes to one field
with two file-parts (payloads `[1, 2]` and `[3, 4]`),
`parse_multipart_files` returns the concatenation `[1, 2, 3, 4]` of the
field's payloads — not the first file-part's payload `[1, 2]`. -/
theorem parse_multipart_files_counterexample :
    parse_multipart_files parseHeaderW parseMultipartTwoParts
        "multipart/form-data; boundary=XX" [9, 9] =
      Option.some { data := [1, 2, 3, 4], pos := 0 } ∧
    (Option.some { data := [1, 2, 3, 4], pos := 0 } : Option ByteBuf) ≠
      Option.some { data := [1, 2], pos := 0 } := by
  decide

/-- C9 (amended): for a multipart body whose decoded dictionary holds a
single field, `parse_multipart_files` parses the `Content-Type` header,
decodes the body, and returns an in-memory byte buffer positioned at
its start holding the concatenation of that field's file-part payloads;
in particular, when exactly one file-part is present the buffer holds
that part's payload. -/
theorem parse_multipart_files_single_field
    (parse_header : String → String × List (String × String))
    (parse_multipart : List Nat → List (String × String) →
      List (String × List (List Nat)))
    (content_type_header : String) (body : List Nat) (name : String)
    (payloads : List (List Nat))
    (h : parse_multipart body (parse_header content_type_header).2 =
      [(name, payloads)]) :
    parse_multipart_files parse_header parse_multipart content_type_header
        body =
      Option.some { data := payloads.flatten, pos := 0 } ∧
    ∀ p, payloads = [p] →
      parse_multipart_files parse_header parse_multipart content_type_header
          body =
        Option.some { data := p, pos := 0 } := by
  constructor
  · simp [parse_multipart_files, dict_popitem, h]
  · intro p hp
    subst hp
    simp [parse_multipart_files, dict_popitem, h]

/-- A concrete `cgi.parse_multipart` oracle with a single file-part. -/
def parseMultipartOnePart :
    List Nat → List (String × String) → List (String × List (List Nat)) :=
  fun _ _ => [("file", [[5, 6, 7]])]

/-- Witness for C9's amended theorem on a single-file-part body. -/
theorem parse_multipart_files_single_field_witness :
    parse_multipart_files parseHeaderW parseMultipartOnePart
        "multipart/form-data; boundary=XX" [9] =
      Option.some { data := [5, 6, 7], pos := 0 } :=
  (parse_multipart_files_single_field parseHeaderW parseMultipartOnePart
    "multipart/form-data; boundary=XX" [9] "file" [[5, 6, 7]] rfl).2
    [5, 6, 7] rfl

/-- C10: a freshly constructed `S3Adapter` has `_temp_file = None`, and
`close()` on it removes nothing and succeeds (the removal is guarded on
`_temp_file` being set). -/
theorem s3_close_fresh_adapter :
    S3Adapter.init._temp_file = Option.none ∧
    S3Adapter.close S3Adapter.init = [] :=
  ⟨rfl, rfl⟩
